import Mathlib

set_option maxRecDepth 4000

/-!
Verification development for the four-router OSPF orchestration script
(Vivek_Anandh_U1241037.py).  The script is sequential glue code that shells
out to docker, apt and vtysh; we embed it as a trace semantics.  A `PyM`
computation threads the module-level globals (the static topology tables and
weight constants), may raise an uncaught Python exception (modelled as
`Except.error ()`), and records a list of observable `Event`s: external
process invocations, fixed sleeps, printed lines, the one background `Popen`,
and the SIGINT-handler installation.  The outcome of every spawned process is
supplied by an `Oracle`, so theorems can quantify over everything the
external world may answer.
-/

/-- Outcome of one attempt to run an external process: it ran and exited 0
producing stdout, it ran and exited nonzero (CalledProcessError with a return
code and stderr), or it could not be started at all (e.g. missing binary,
raising an exception other than CalledProcessError). -/
inductive ProcResult where
  | success (stdout : String) : ProcResult
  | failed (returncode : Int) (stderr : String) : ProcResult
  | startError : ProcResult
  deriving DecidableEq

/-- Observable events of a run of the script. `exec` is a blocking
`subprocess.run` invocation (the full argument vector handed to the OS),
`popen` the one background `subprocess.Popen`, `sleep` a `time.sleep`,
`msg` a printed line, `callSwitch` marks entry into `switch_traffic_path`
with its arguments, `installSigint` the `signal.signal(SIGINT, ...)` call,
`terminateChild` a `Popen.terminate()`, `exitProgram` a `sys.exit`, and
`help` the argparse help printout. -/
inductive Event where
  | exec (cmd : List String) : Event
  | popen (cmd : List String) : Event
  | sleep (seconds : Nat) : Event
  | msg (s : String) : Event
  | callSwitch (from_path to_path : String) : Event
  | installSigint : Event
  | terminateChild : Event
  | exitProgram (code : Nat) : Event
  | help : Event
  deriving DecidableEq

deriving instance DecidableEq for Except

/-- One entry of a router interface table: the attached network and the
interface address, as in the source dictionaries. -/
structure IfaceConfig where
  network : String
  ip : String
  deriving DecidableEq

/-- Per-router entry of the ROUTERS table. -/
structure RouterConfig where
  interfaces : List (String × IfaceConfig)
  router_id : String
  networks : List String
  north_interface : String
  south_interface : String
  deriving DecidableEq

instance : Inhabited RouterConfig := ⟨⟨[], "", [], "", ""⟩⟩

/-- Per-host entry of the HOSTS table. -/
structure HostConfig where
  ip : String
  interface : String
  gateway : String
  remote_subnet : String
  deriving DecidableEq

/-- The module-level mutable environment of the script: the two topology
tables and the two weight constants. -/
structure Globals where
  ROUTERS : List (String × RouterConfig)
  HOSTS : List (String × HostConfig)
  DEFAULT_WEIGHT : Int
  HIGH_WEIGHT : Int
  deriving DecidableEq

/-- r1 entry of the ROUTERS table (source lines 12-22). -/
def r1_config : RouterConfig :=
  { interfaces := [("eth0", ⟨"net14", "10.0.14.4/24"⟩),
                   ("eth1", ⟨"net10", "10.0.10.3/24"⟩),
                   ("eth2", ⟨"net13", "10.0.13.4/24"⟩)],
    router_id := "192.168.1.1",
    networks := ["10.0.14.0/24", "10.0.10.0/24", "10.0.13.0/24"],
    north_interface := "eth1",
    south_interface := "eth2" }

/-- r2 entry of the ROUTERS table (source lines 23-32). -/
def r2_config : RouterConfig :=
  { interfaces := [("eth0", ⟨"net10", "10.0.10.4/24"⟩),
                   ("eth1", ⟨"net11", "10.0.11.3/24"⟩)],
    router_id := "192.168.1.2",
    networks := ["10.0.10.0/24", "10.0.11.0/24"],
    north_interface := "eth0",
    south_interface := "eth1" }

/-- r3 entry of the ROUTERS table (source lines 33-43). -/
def r3_config : RouterConfig :=
  { interfaces := [("eth0", ⟨"net11", "10.0.11.4/24"⟩),
                   ("eth1", ⟨"net12", "10.0.12.3/24"⟩),
                   ("eth2", ⟨"net15", "10.0.15.4/24"⟩)],
    router_id := "192.168.1.3",
    networks := ["10.0.11.0/24", "10.0.12.0/24", "10.0.15.0/24"],
    north_interface := "eth0",
    south_interface := "eth1" }

/-- r4 entry of the ROUTERS table (source lines 44-53). -/
def r4_config : RouterConfig :=
  { interfaces := [("eth0", ⟨"net13", "10.0.13.3/24"⟩),
                   ("eth1", ⟨"net12", "10.0.12.4/24"⟩)],
    router_id := "192.168.1.4",
    networks := ["10.0.13.0/24", "10.0.12.0/24"],
    north_interface := "eth0",
    south_interface := "eth1" }

/-- The ROUTERS dictionary, in insertion order. -/
def ROUTERS : List (String × RouterConfig) :=
  [("r1", r1_config), ("r2", r2_config), ("r3", r3_config), ("r4", r4_config)]

/-- The HOSTS dictionary, in insertion order (source lines 56-69). -/
def HOSTS : List (String × HostConfig) :=
  [("hosta", { ip := "10.0.14.3/24", interface := "eth0",
               gateway := "10.0.14.4", remote_subnet := "10.0.15.0/24" }),
   ("hostb", { ip := "10.0.15.3/24", interface := "eth0",
               gateway := "10.0.15.4", remote_subnet := "10.0.14.0/24" })]

/-- DEFAULT_WEIGHT = 10 (source line 72). -/
def DEFAULT_WEIGHT : Int := 10

/-- HIGH_WEIGHT = 100 (source line 73). -/
def HIGH_WEIGHT : Int := 100

/-- The initial module-level environment. -/
def initGlobals : Globals :=
  { ROUTERS := ROUTERS, HOSTS := HOSTS,
    DEFAULT_WEIGHT := DEFAULT_WEIGHT, HIGH_WEIGHT := HIGH_WEIGHT }

/-- The environment answering each spawned process invocation. -/
def Oracle : Type := List String → ProcResult

/-- A script computation: from the current globals it produces either a value
or an uncaught exception, the possibly updated globals, and the emitted
events in order. -/
def PyM (α : Type) : Type := Globals → Except Unit α × Globals × List Event

def PyM.pure {α : Type} (a : α) : PyM α := fun g => (Except.ok a, g, [])

def PyM.bind {α β : Type} (m : PyM α) (k : α → PyM β) : PyM β := fun g =>
  match m g with
  | (Except.error e, g₁, tr₁) => (Except.error e, g₁, tr₁)
  | (Except.ok a, g₁, tr₁) =>
    match k a g₁ with
    | (r, g₂, tr₂) => (r, g₂, tr₁ ++ tr₂)

instance : Monad PyM where
  pure := PyM.pure
  bind := PyM.bind

/-- Record one event. -/
def emit (e : Event) : PyM Unit := fun g => (Except.ok (), g, [e])

/-- A `print(...)` call. -/
def pyPrint (s : String) : PyM Unit := emit (Event.msg s)

/-- A `time.sleep(n)` call. -/
def pySleep (n : Nat) : PyM Unit := emit (Event.sleep n)

/-- Read the module-level globals. -/
def readGlobals : PyM Globals := fun g => (Except.ok g, g, [])

/-- Python truthiness of an optional string: None and the empty string are
falsy. -/
def pyTruthy (s : Option String) : Bool :=
  match s with
  | some s => s != ""
  | none => false

/-- The expression `output if output else fallback`. -/
def pyTruthyStr (s : Option String) (fallback : String) : String :=
  match s with
  | some s => if s = "" then fallback else s
  | none => fallback

/-- Python dict lookup `d[k]` on the association lists used here (total,
with a junk default; every lookup performed by the script hits a present
literal key). -/
def dictGet {β : Type} [Inhabited β] (d : List (String × β)) (k : String) : β :=
  ((d.find? (fun p => p.1 == k)).map Prod.snd).getD default

/-- The full argument vector run_command hands to subprocess.run: the command
itself, or `docker exec <container> <cmd>` when a (truthy) container is
given.  Python tests `if container:`, so an empty-string container behaves
like None. -/
def build_full_cmd (cmd : List String) (container : Option String) : List String :=
  match container with
  | some c => if c = "" then cmd else ["docker", "exec", c] ++ cmd
  | none => cmd

/-- run_command (source lines 75-89): run the command, return stripped stdout
on success; on CalledProcessError print the command, exit code and stderr and
return None; any other exception (the process could not be started)
propagates uncaught. -/
def run_command (o : Oracle) (cmd : List String) (container : Option String) :
    PyM (Option String) := fun g =>
  match o (build_full_cmd cmd container) with
  | ProcResult.success out =>
      (Except.ok (some out.trim), g, [Event.exec (build_full_cmd cmd container)])
  | ProcResult.failed rc err =>
      (Except.ok none, g,
        [Event.exec (build_full_cmd cmd container),
         Event.msg ("Error executing command: " ++
           String.intercalate " " (build_full_cmd cmd container)),
         Event.msg ("Exit code: " ++ toString rc),
         Event.msg ("Error output: " ++ err)])
  | ProcResult.startError => (Except.error (), g, [Event.exec (build_full_cmd cmd container)])

/-- start_containers (source lines 91-98). -/
def start_containers (o : Oracle) : PyM Unit := do
  pyPrint "Starting containers..."
  let _ ← run_command o ["docker", "compose", "up", "-d"] none
  pySleep 5
  pyPrint "Containers started"

/-- stop_containers (source lines 100-104). -/
def stop_containers (o : Oracle) : PyM Unit := do
  pyPrint "Stopping containers..."
  let _ ← run_command o ["docker", "compose", "down"] none
  pyPrint "Containers stopped"

/-- install_frr (source lines 106-145). -/
def install_frr (o : Oracle) (container : String) : PyM Unit := do
  pyPrint ("Installing FRR on " ++ container ++ "...")
  let _ ← run_command o ["apt-get", "update"] (some container)
  let _ ← run_command o ["apt", "-y", "install", "curl", "gnupg", "lsb-release"] (some container)
  let _ ← run_command o ["bash", "-c",
    "curl -s https://deb.frrouting.org/frr/keys.gpg | tee /usr/share/keyrings/frrouting.gpg > /dev/null"]
    (some container)
  let repo_cmd :=
    "echo deb [signed-by=/usr/share/keyrings/frrouting.gpg] https://deb.frrouting.org/frr $(lsb_release -s -c) frr-stable | tee -a /etc/apt/sources.list.d/frr.list"
  let _ ← run_command o ["bash", "-c", repo_cmd] (some container)
  let _ ← run_command o ["apt", "update"] (some container)
  let _ ← run_command o ["apt", "-y", "install", "frr", "frr-pythontools"] (some container)
  let _ ← run_command o ["sed", "-i", "s/ospfd=no/ospfd=yes/g", "/etc/frr/daemons"] (some container)
  let _ ← run_command o ["service", "frr", "restart"] (some container)
  let output ← run_command o ["bash", "-c", "pgrep ospfd"] (some container)
  if pyTruthy output then
    pyPrint ("OSPF daemon running on " ++ container ++ " (pid " ++ output.getD "" ++ ")")
  else
    pyPrint ("Warning: OSPF daemon may not be running on " ++ container)

/-- configure_basic_ospf (source lines 190-206): build the vtysh input that
sets the router id and adds every network to area 0.0.0.0, and apply it. -/
def configure_basic_ospf (o : Oracle) (router : String) (config : RouterConfig) :
    PyM Unit := do
  let ospf_config :=
    "\n    configure terminal\n    router ospf\n    ospf router-id " ++
      config.router_id ++ "\n    "
  let ospf_config := config.networks.foldl
    (fun acc network => acc ++ "network " ++ network ++ " area 0.0.0.0\n") ospf_config
  let ospf_config := ospf_config ++ "exit\nend\nwrite memory"
  let _ ← run_command o ["vtysh", "-c", ospf_config] (some router)
  pure ()

/-- set_ospf_weight (source lines 208-220): one `docker exec <router> vtysh`
invocation carrying six -c arguments. -/
def set_ospf_weight (o : Oracle) (router interface : String) (weight : Int) :
    PyM Unit := do
  let cmds := ["configure terminal",
               "interface " ++ interface,
               "ip ospf cost " ++ toString weight,
               "exit",
               "end",
               "write memory"]
  let args := cmds.foldl (fun args c => args ++ ["-c", c]) ([] : List String)
  let _ ← run_command o (["docker", "exec", router, "vtysh"] ++ args) none
  pure ()

/-- configure_ospf (source lines 148-188): pick the four link weights from
the path, then for each router apply the basic OSPF configuration followed by
the two per-interface link costs, and finally sleep for convergence. -/
def configure_ospf (o : Oracle) (path : String) : PyM Unit := do
  pyPrint "Configuring OSPF on all routers..."
  let g ← readGlobals
  let r1_r2_weight := if path = "north" then g.DEFAULT_WEIGHT else g.HIGH_WEIGHT
  let r2_r3_weight := if path = "north" then g.DEFAULT_WEIGHT else g.HIGH_WEIGHT
  let r1_r4_weight := if path = "north" then g.HIGH_WEIGHT else g.DEFAULT_WEIGHT
  let r3_r4_weight := if path = "north" then g.HIGH_WEIGHT else g.DEFAULT_WEIGHT
  g.ROUTERS.forM (fun rc => do
    let router := rc.1
    let config := rc.2
    configure_basic_ospf o router config
    if router = "r1" then do
      set_ospf_weight o router config.north_interface r1_r2_weight
      set_ospf_weight o router config.south_interface r1_r4_weight
    else if router = "r2" then do
      set_ospf_weight o router config.north_interface r1_r2_weight
      set_ospf_weight o router config.south_interface r2_r3_weight
    else if router = "r3" then do
      set_ospf_weight o router config.north_interface r2_r3_weight
      set_ospf_weight o router config.south_interface r3_r4_weight
    else if router = "r4" then do
      set_ospf_weight o router config.north_interface r1_r4_weight
      set_ospf_weight o router config.south_interface r3_r4_weight
    else pure ())
  pyPrint "Waiting for OSPF convergence..."
  pySleep 5
  pyPrint "OSPF configuration complete"

/-- setup_host_routes (source lines 223-231). -/
def setup_host_routes (o : Oracle) : PyM Unit := do
  pyPrint "Setting up routes on host machines..."
  let g ← readGlobals
  g.HOSTS.forM (fun hc => do
    let _ ← run_command o
      ["ip", "route", "add", hc.2.remote_subnet, "via", hc.2.gateway] (some hc.1)
    pure ())
  pyPrint "Host routes configured"

/-- switch_traffic_path (source lines 233-280).  The leading `callSwitch`
event is an entry marker recording the arguments of the call; the body then
follows the source: for north-to-south first lower the southern costs, sleep,
then raise the northern costs; mirrored for south-to-north; any other pair
falls through both branches. -/
def switch_traffic_path (o : Oracle) (from_path to_path : String) : PyM Unit := do
  emit (Event.callSwitch from_path to_path)
  pyPrint ("Switching traffic from " ++ from_path ++ " path to " ++ to_path ++ " path...")
  let g ← readGlobals
  if from_path = "north" ∧ to_path = "south" then do
    pyPrint "Step 1: Lowering cost of southern path"
    set_ospf_weight o "r1" (dictGet g.ROUTERS "r1").south_interface g.DEFAULT_WEIGHT
    set_ospf_weight o "r4" (dictGet g.ROUTERS "r4").north_interface g.DEFAULT_WEIGHT
    set_ospf_weight o "r3" (dictGet g.ROUTERS "r3").south_interface g.DEFAULT_WEIGHT
    set_ospf_weight o "r4" (dictGet g.ROUTERS "r4").south_interface g.DEFAULT_WEIGHT
    pyPrint "Waiting for OSPF to converge..."
    pySleep 5
    pyPrint "Step 2: Increasing cost of northern path"
    set_ospf_weight o "r1" (dictGet g.ROUTERS "r1").north_interface g.HIGH_WEIGHT
    set_ospf_weight o "r2" (dictGet g.ROUTERS "r2").north_interface g.HIGH_WEIGHT
    set_ospf_weight o "r2" (dictGet g.ROUTERS "r2").south_interface g.HIGH_WEIGHT
    set_ospf_weight o "r3" (dictGet g.ROUTERS "r3").north_interface g.HIGH_WEIGHT
  else if from_path = "south" ∧ to_path = "north" then do
    pyPrint "Step 1: Lowering cost of northern path"
    set_ospf_weight o "r1" (dictGet g.ROUTERS "r1").north_interface g.DEFAULT_WEIGHT
    set_ospf_weight o "r2" (dictGet g.ROUTERS "r2").north_interface g.DEFAULT_WEIGHT
    set_ospf_weight o "r2" (dictGet g.ROUTERS "r2").south_interface g.DEFAULT_WEIGHT
    set_ospf_weight o "r3" (dictGet g.ROUTERS "r3").north_interface g.DEFAULT_WEIGHT
    pyPrint "Waiting for OSPF to converge..."
    pySleep 5
    pyPrint "Step 2: Increasing cost of southern path"
    set_ospf_weight o "r1" (dictGet g.ROUTERS "r1").south_interface g.HIGH_WEIGHT
    set_ospf_weight o "r4" (dictGet g.ROUTERS "r4").north_interface g.HIGH_WEIGHT
    set_ospf_weight o "r3" (dictGet g.ROUTERS "r3").south_interface g.HIGH_WEIGHT
    set_ospf_weight o "r4" (dictGet g.ROUTERS "r4").south_interface g.HIGH_WEIGHT
  else pure ()
  pyPrint "Waiting for full OSPF convergence..."
  pySleep 5
  pyPrint ("Traffic switched to " ++ to_path ++ " path")

/-- show_routing_tables (source lines 282-287). -/
def show_routing_tables (o : Oracle) : PyM Unit := do
  let g ← readGlobals
  g.ROUTERS.forM (fun rc => do
    pyPrint ("\n=== " ++ rc.1.toUpper ++ " Routing Table ===")
    let output ← run_command o ["vtysh", "-c", "show ip route ospf"] (some rc.1)
    pyPrint (pyTruthyStr output "No OSPF routes found"))

/-- show_ospf_neighbors (source lines 289-294). -/
def show_ospf_neighbors (o : Oracle) : PyM Unit := do
  let g ← readGlobals
  g.ROUTERS.forM (fun rc => do
    pyPrint ("\n=== " ++ rc.1.toUpper ++ " OSPF Neighbors ===")
    let output ← run_command o ["vtysh", "-c", "show ip ospf neighbor"] (some rc.1)
    pyPrint (pyTruthyStr output "No OSPF neighbors found"))

/-- trace_route (source lines 296-300). -/
def trace_route (o : Oracle) : PyM Unit := do
  pyPrint "\n=== Traceroute from HostA to HostB ==="
  let output ← run_command o ["traceroute", "-n", "10.0.15.3"] (some "hosta")
  pyPrint (pyTruthyStr output "Traceroute failed")

/-- ping_test (source lines 302-306); the source default for count is 4. -/
def ping_test (o : Oracle) (count : Int) : PyM Unit := do
  pyPrint ("\n=== Ping test from HostA to HostB (" ++ toString count ++ " packets) ===")
  let output ← run_command o ["ping", "-c", toString count, "10.0.15.3"] (some "hosta")
  pyPrint (pyTruthyStr output "Ping failed")

/-- The effects of the SIGINT handler installed by continuous_ping (source
lines 323-326): print, terminate the one child process, exit with status 0. -/
def signal_handler_events : List Event :=
  [Event.msg "\nStopping ping...", Event.terminateChild, Event.exitProgram 0]

/-- continuous_ping (source lines 308-336): start the background ping inside
hosta, install the SIGINT handler, then echo each line the child prints
(pingOutput is the stream the child produces). -/
def continuous_ping (pingOutput : List String) : PyM Unit := do
  pyPrint "Starting continuous ping from HostA to HostB..."
  pyPrint "Press Ctrl+C to stop"
  emit (Event.popen ["docker", "exec", "hosta", "ping", "10.0.15.3"])
  emit Event.installSigint
  pingOutput.forM (fun line => pyPrint line.trim)

/-- The parsed argparse flags (source lines 340-360). -/
structure Args where
  start : Bool
  stop : Bool
  setup : Bool
  use_north : Bool
  use_south : Bool
  switch_to_north : Bool
  switch_to_south : Bool
  show_routes : Bool
  show_neighbors : Bool
  traceroute : Bool
  ping : Bool
  continuous_ping : Bool
  deriving DecidableEq

/-- The main function of the script (source lines 338-415): the CLI
dispatcher.  argv_len is len(sys.argv); pingOutput is the stream a background
ping would produce. -/
def py_main (o : Oracle) (args : Args) (pingOutput : List String) (argv_len : Nat) :
    PyM Unit := do
  let _ ← (if args.start then start_containers o else pure ())
  let _ ← (if args.stop then stop_containers o else pure ())
  let _ ← (if args.setup then (do
    start_containers o
    let g ← readGlobals
    g.ROUTERS.forM (fun rc => install_frr o rc.1)
    configure_ospf o "north"
    setup_host_routes o
    pyPrint "Network setup complete") else pure ())
  let _ ← (if args.use_north then configure_ospf o "north" else pure ())
  let _ ← (if args.use_south then configure_ospf o "south" else pure ())
  let _ ← (if args.switch_to_north then switch_traffic_path o "south" "north" else pure ())
  let _ ← (if args.switch_to_south then switch_traffic_path o "north" "south" else pure ())
  let _ ← (if args.show_routes then show_routing_tables o else pure ())
  let _ ← (if args.show_neighbors then show_ospf_neighbors o else pure ())
  let _ ← (if args.traceroute then trace_route o else pure ())
  let _ ← (if args.ping then ping_test o 4 else pure ())
  let _ ← (if args.continuous_ping then continuous_ping pingOutput else pure ())
  if argv_len = 1 then emit Event.help else pure ()

/-! ## Script-side descriptions of the command traces -/

/-- Events that are external process invocations or sleeps: the fixed command
script of an operation. -/
def cmdEvent : Event → Bool
  | Event.exec _ => true
  | Event.sleep _ => true
  | _ => false

/-- Entry markers of switch_traffic_path. -/
def switchCallEvent : Event → Bool
  | Event.callSwitch _ _ => true
  | _ => false

/-- Concurrency-related events: background process spawns and SIGINT-handler
installations. -/
def concEvent : Event → Bool
  | Event.popen _ => true
  | Event.installSigint => true
  | _ => false

/-- The oracle never answers that a process failed to start: every invoked
process actually runs (and may succeed or exit nonzero). -/
def NoStart (o : Oracle) : Prop := ∀ c, o c ≠ ProcResult.startError

/-- The full argument vector of the single process invocation made by
set_ospf_weight: docker exec, the router, vtysh, and six -c arguments. -/
def vtysh_weight_cmd (router interface : String) (weight : Int) : List String :=
  ["docker", "exec", router, "vtysh",
   "-c", "configure terminal",
   "-c", "interface " ++ interface,
   "-c", "ip ospf cost " ++ toString weight,
   "-c", "exit",
   "-c", "end",
   "-c", "write memory"]

/-- The exec event of one set_ospf_weight call. -/
def weight_event (router interface : String) (weight : Int) : Event :=
  Event.exec (vtysh_weight_cmd router interface weight)

/-- The vtysh input configure_basic_ospf builds: router id, then every
network in area 0.0.0.0, then exit/end/write memory. -/
def basic_ospf_config_str (config : RouterConfig) : String :=
  (config.networks.foldl
    (fun acc network => acc ++ "network " ++ network ++ " area 0.0.0.0\n")
    ("\n    configure terminal\n    router ospf\n    ospf router-id " ++
      config.router_id ++ "\n    "))
  ++ "exit\nend\nwrite memory"

/-- The exec event of one configure_basic_ospf call. -/
def basic_ospf_event (router : String) (config : RouterConfig) : Event :=
  Event.exec (build_full_cmd ["vtysh", "-c", basic_ospf_config_str config] (some router))

/-- Commands and sleeps of start_containers. -/
def start_events : List Event :=
  [Event.exec ["docker", "compose", "up", "-d"], Event.sleep 5]

/-- Commands of stop_containers. -/
def stop_events : List Event := [Event.exec ["docker", "compose", "down"]]

/-- The nine process invocations of install_frr, in order. -/
def install_frr_events (c : String) : List Event :=
  [Event.exec (build_full_cmd ["apt-get", "update"] (some c)),
   Event.exec (build_full_cmd ["apt", "-y", "install", "curl", "gnupg", "lsb-release"] (some c)),
   Event.exec (build_full_cmd ["bash", "-c",
     "curl -s https://deb.frrouting.org/frr/keys.gpg | tee /usr/share/keyrings/frrouting.gpg > /dev/null"] (some c)),
   Event.exec (build_full_cmd ["bash", "-c",
     "echo deb [signed-by=/usr/share/keyrings/frrouting.gpg] https://deb.frrouting.org/frr $(lsb_release -s -c) frr-stable | tee -a /etc/apt/sources.list.d/frr.list"] (some c)),
   Event.exec (build_full_cmd ["apt", "update"] (some c)),
   Event.exec (build_full_cmd ["apt", "-y", "install", "frr", "frr-pythontools"] (some c)),
   Event.exec (build_full_cmd ["sed", "-i", "s/ospfd=no/ospfd=yes/g", "/etc/frr/daemons"] (some c)),
   Event.exec (build_full_cmd ["service", "frr", "restart"] (some c)),
   Event.exec (build_full_cmd ["bash", "-c", "pgrep ospfd"] (some c))]

/-- The command script of configure_ospf as a function of the path argument:
for each router in order, the basic OSPF configuration followed by the two
per-interface costs, then the convergence sleep.  On the "north" path the
R1-R2 and R2-R3 interfaces get cost 10 and the R1-R4 and R3-R4 interfaces get
cost 100; on every other path the assignment is reversed. -/
def configure_ospf_events (path : String) : List Event :=
  if path = "north" then
    [basic_ospf_event "r1" r1_config,
     weight_event "r1" "eth1" 10, weight_event "r1" "eth2" 100,
     basic_ospf_event "r2" r2_config,
     weight_event "r2" "eth0" 10, weight_event "r2" "eth1" 10,
     basic_ospf_event "r3" r3_config,
     weight_event "r3" "eth0" 10, weight_event "r3" "eth1" 100,
     basic_ospf_event "r4" r4_config,
     weight_event "r4" "eth0" 100, weight_event "r4" "eth1" 100,
     Event.sleep 5]
  else
    [basic_ospf_event "r1" r1_config,
     weight_event "r1" "eth1" 100, weight_event "r1" "eth2" 10,
     basic_ospf_event "r2" r2_config,
     weight_event "r2" "eth0" 100, weight_event "r2" "eth1" 100,
     basic_ospf_event "r3" r3_config,
     weight_event "r3" "eth0" 100, weight_event "r3" "eth1" 10,
     basic_ospf_event "r4" r4_config,
     weight_event "r4" "eth0" 10, weight_event "r4" "eth1" 10,
     Event.sleep 5]

/-- Commands of setup_host_routes. -/
def host_routes_events : List Event :=
  [Event.exec (build_full_cmd ["ip", "route", "add", "10.0.15.0/24", "via", "10.0.14.4"] (some "hosta")),
   Event.exec (build_full_cmd ["ip", "route", "add", "10.0.14.0/24", "via", "10.0.15.4"] (some "hostb"))]

/-- The four commands lowering the southern-path costs to 10, in source
order: r1 south, r4 north, r3 south, r4 south. -/
def lower_south_events : List Event :=
  [weight_event "r1" "eth2" 10, weight_event "r4" "eth0" 10,
   weight_event "r3" "eth1" 10, weight_event "r4" "eth1" 10]

/-- The four commands raising the northern-path costs to 100. -/
def raise_north_events : List Event :=
  [weight_event "r1" "eth1" 100, weight_event "r2" "eth0" 100,
   weight_event "r2" "eth1" 100, weight_event "r3" "eth0" 100]

/-- The four commands lowering the northern-path costs to 10. -/
def lower_north_events : List Event :=
  [weight_event "r1" "eth1" 10, weight_event "r2" "eth0" 10,
   weight_event "r2" "eth1" 10, weight_event "r3" "eth0" 10]

/-- The four commands raising the southern-path costs to 100. -/
def raise_south_events : List Event :=
  [weight_event "r1" "eth2" 100, weight_event "r4" "eth0" 100,
   weight_event "r3" "eth1" 100, weight_event "r4" "eth1" 100]

/-- The event script of switch_traffic_path as a function of its arguments:
the entry marker, then for a supported pair the four lowering commands, the
convergence sleep, the four raising commands, and in every case the final
sleep. -/
def switch_events (from_path to_path : String) : List Event :=
  Event.callSwitch from_path to_path ::
    ((if from_path = "north" ∧ to_path = "south" then
        lower_south_events ++ Event.sleep 5 :: raise_north_events
      else if from_path = "south" ∧ to_path = "north" then
        lower_north_events ++ Event.sleep 5 :: raise_south_events
      else []) ++ [Event.sleep 5])

/-- Commands of show_routing_tables. -/
def show_routes_events : List Event :=
  [Event.exec (build_full_cmd ["vtysh", "-c", "show ip route ospf"] (some "r1")),
   Event.exec (build_full_cmd ["vtysh", "-c", "show ip route ospf"] (some "r2")),
   Event.exec (build_full_cmd ["vtysh", "-c", "show ip route ospf"] (some "r3")),
   Event.exec (build_full_cmd ["vtysh", "-c", "show ip route ospf"] (some "r4"))]

/-- Commands of show_ospf_neighbors. -/
def show_neighbors_events : List Event :=
  [Event.exec (build_full_cmd ["vtysh", "-c", "show ip ospf neighbor"] (some "r1")),
   Event.exec (build_full_cmd ["vtysh", "-c", "show ip ospf neighbor"] (some "r2")),
   Event.exec (build_full_cmd ["vtysh", "-c", "show ip ospf neighbor"] (some "r3")),
   Event.exec (build_full_cmd ["vtysh", "-c", "show ip ospf neighbor"] (some "r4"))]

/-- Commands of trace_route. -/
def trace_route_events : List Event :=
  [Event.exec (build_full_cmd ["traceroute", "-n", "10.0.15.3"] (some "hosta"))]

/-- Commands of ping_test. -/
def ping_test_events (count : Int) : List Event :=
  [Event.exec (build_full_cmd ["ping", "-c", toString count, "10.0.15.3"] (some "hosta"))]

/-- Concurrency events of continuous_ping: the background ping spawn and the
SIGINT-handler installation, in that order. -/
def continuous_ping_events : List Event :=
  [Event.popen ["docker", "exec", "hosta", "ping", "10.0.15.3"], Event.installSigint]

/-- Non-print events of the --setup block of the dispatcher. -/
def setup_events : List Event :=
  start_events ++
    (install_frr_events "r1" ++ install_frr_events "r2" ++
      install_frr_events "r3" ++ install_frr_events "r4") ++
    configure_ospf_events "north" ++ host_routes_events

/-- Non-print events of the whole dispatcher as a function of the parsed
flags and of len(sys.argv). -/
def main_events (args : Args) (argv_len : Nat) : List Event :=
  (if args.start then start_events else []) ++
  (if args.stop then stop_events else []) ++
  (if args.setup then setup_events else []) ++
  (if args.use_north then configure_ospf_events "north" else []) ++
  (if args.use_south then configure_ospf_events "south" else []) ++
  (if args.switch_to_north then switch_events "south" "north" else []) ++
  (if args.switch_to_south then switch_events "north" "south" else []) ++
  (if args.show_routes then show_routes_events else []) ++
  (if args.show_neighbors then show_neighbors_events else []) ++
  (if args.traceroute then trace_route_events else []) ++
  (if args.ping then ping_test_events 4 else []) ++
  (if args.continuous_ping then continuous_ping_events else []) ++
  (if argv_len = 1 then [Event.help] else [])

/-! ## Trace machinery

`Scripted f g m s` says: started at globals g, the computation m completes
normally (no uncaught exception), leaves the globals at g, and the
f-filtered subsequence of its event trace is exactly s.  Because printed
lines are the only events whose presence depends on the answers of the
oracle, every operation is Scripted, for any filter that discards prints,
with a script that is a function of its arguments alone. -/

def Scripted {α : Type} (f : Event → Bool) (g : Globals) (m : PyM α) (s : List Event) : Prop :=
  ∃ a tr, m g = (Except.ok a, g, tr) ∧ tr.filter f = s

theorem scripted_pure {α : Type} (f : Event → Bool) (g : Globals) (a : α) :
    Scripted f g (pure a) [] := ⟨a, [], rfl, rfl⟩

theorem scripted_congr {α : Type} {f : Event → Bool} {g : Globals} {m : PyM α}
    {s s' : List Event} (h : Scripted f g m s) (hs : s = s') : Scripted f g m s' :=
  hs ▸ h

/-- A script stated as a filter of the empty list. -/
theorem scripted_nilF {α : Type} {f : Event → Bool} {g : Globals} {m : PyM α}
    (h : Scripted f g m []) : Scripted f g m (List.filter f []) := h

theorem scripted_bind {α β : Type} {f : Event → Bool} {g : Globals} {m : PyM α}
    {k : α → PyM β} {s₁ s₂ : List Event}
    (h₁ : Scripted f g m s₁) (h₂ : ∀ a, Scripted f g (k a) s₂) :
    Scripted f g (m >>= k) (s₁ ++ s₂) := by
  obtain ⟨a, tr₁, hm, hf₁⟩ := h₁
  obtain ⟨b, tr₂, hk, hf₂⟩ := h₂ a
  refine ⟨b, tr₁ ++ tr₂, ?_, ?_⟩
  · show PyM.bind m k g = _
    simp only [PyM.bind, hm, hk]
  · simp [List.filter_append, hf₁, hf₂]

/-- Sequencing where the first component contributes nothing to the script. -/
theorem scripted_skip {α β : Type} {f : Event → Bool} {g : Globals} {m : PyM α}
    {k : α → PyM β} {s : List Event}
    (h₁ : Scripted f g m []) (h₂ : ∀ a, Scripted f g (k a) s) :
    Scripted f g (m >>= k) s := by
  have h := scripted_bind h₁ h₂
  simpa using h

/-- Sequencing of scripts in filtered form. -/
theorem scripted_append {α β : Type} {f : Event → Bool} {g : Globals} {m : PyM α}
    {k : α → PyM β} {l₁ l₂ : List Event}
    (h₁ : Scripted f g m (l₁.filter f)) (h₂ : ∀ a, Scripted f g (k a) (l₂.filter f)) :
    Scripted f g (m >>= k) ((l₁ ++ l₂).filter f) :=
  scripted_congr (scripted_bind h₁ h₂) (List.filter_append _ _).symm

theorem scripted_emit {f : Event → Bool} {g : Globals} (e : Event) :
    Scripted f g (emit e) (List.filter f [e]) := ⟨(), [e], rfl, rfl⟩

theorem scripted_msg {f : Event → Bool} {g : Globals}
    (hf : ∀ t, f (Event.msg t) = false) (s : String) :
    Scripted f g (pyPrint s) [] :=
  ⟨(), [Event.msg s], rfl, by simp [List.filter_cons, List.filter_nil, hf]⟩

theorem scripted_read_bind {α : Type} {f : Event → Bool} {g : Globals}
    {k : Globals → PyM α} {s : List Event} (h : Scripted f g (k g) s) :
    Scripted f g (readGlobals >>= k) s := by
  obtain ⟨a, tr, hk, hfk⟩ := h
  refine ⟨a, tr, ?_, hfk⟩
  show PyM.bind readGlobals k g = _
  simp only [PyM.bind, readGlobals, hk, List.nil_append]

theorem scripted_run_command {f : Event → Bool} {g : Globals}
    (hf : ∀ t, f (Event.msg t) = false) {o : Oracle} (ho : NoStart o)
    (cmd : List String) (container : Option String) :
    Scripted f g (run_command o cmd container)
      (List.filter f [Event.exec (build_full_cmd cmd container)]) := by
  cases h : o (build_full_cmd cmd container) with
  | success out =>
      exact ⟨some out.trim, [Event.exec (build_full_cmd cmd container)],
        by simp [run_command, h], rfl⟩
  | failed rc err =>
      refine ⟨none,
        [Event.exec (build_full_cmd cmd container),
         Event.msg ("Error executing command: " ++
           String.intercalate " " (build_full_cmd cmd container)),
         Event.msg ("Exit code: " ++ toString rc),
         Event.msg ("Error output: " ++ err)], ?_, ?_⟩
      · simp [run_command, h]
      · simp [List.filter_cons, List.filter_nil, hf]
  | startError => exact absurd h (ho _)

theorem scripted_ite_same {α : Type} {f : Event → Bool} {g : Globals} {c : Prop}
    [Decidable c] {m₁ m₂ : PyM α} {s : List Event}
    (h₁ : Scripted f g m₁ s) (h₂ : Scripted f g m₂ s) :
    Scripted f g (if c then m₁ else m₂) s := by
  by_cases hc : c
  · simpa [hc] using h₁
  · simpa [hc] using h₂

/-- A guarded dispatcher statement: if the flag holds run the operation, else
do nothing. -/
theorem scripted_if_flag {f : Event → Bool} {g : Globals} {c : Prop} [Decidable c]
    {m : PyM Unit} (l : List Event) (h : c → Scripted f g m (l.filter f)) :
    Scripted f g (if c then m else pure ())
      (List.filter f (if c then l else [])) := by
  by_cases hc : c
  · simpa [hc] using h hc
  · simp only [hc, if_false]
    exact scripted_pure f g ()

theorem scripted_forM_nil {α : Type} {f : Event → Bool} {g : Globals} {l : List α}
    {k : α → PyM PUnit} (h : ∀ x ∈ l, Scripted f g (k x) []) :
    Scripted f g (l.forM k) [] := by
  induction l with
  | nil => exact ⟨PUnit.unit, [], rfl, rfl⟩
  | cons x xs ih =>
      have h₁ := h x (List.mem_cons_self x xs)
      have h₂ := ih (fun y hy => h y (List.mem_cons_of_mem x hy))
      have hb := scripted_bind h₁ (fun _ => h₂)
      simpa [List.forM_cons'] using hb

/-! ## Per-operation scripts -/

theorem scripted_start_containers {f : Event → Bool} {g : Globals}
    (hf : ∀ t, f (Event.msg t) = false) {o : Oracle} (ho : NoStart o) :
    Scripted f g (start_containers o) (start_events.filter f) := by
  refine scripted_congr
    (scripted_skip (scripted_msg hf _) fun _ =>
      scripted_append (scripted_run_command hf ho _ _) fun _ =>
      scripted_append (scripted_emit _) fun _ =>
      scripted_nilF (scripted_msg hf _)) ?_
  simp [start_events, build_full_cmd]

theorem scripted_stop_containers {f : Event → Bool} {g : Globals}
    (hf : ∀ t, f (Event.msg t) = false) {o : Oracle} (ho : NoStart o) :
    Scripted f g (stop_containers o) (stop_events.filter f) := by
  refine scripted_congr
    (scripted_skip (scripted_msg hf _) fun _ =>
      scripted_append (scripted_run_command hf ho _ _) fun _ =>
      scripted_nilF (scripted_msg hf _)) ?_
  simp [stop_events, build_full_cmd]

theorem scripted_install_frr {f : Event → Bool} {g : Globals}
    (hf : ∀ t, f (Event.msg t) = false) {o : Oracle} (ho : NoStart o) (c : String) :
    Scripted f g (install_frr o c) ((install_frr_events c).filter f) := by
  refine scripted_congr
    (scripted_skip (scripted_msg hf _) fun _ =>
      scripted_append (scripted_run_command hf ho _ _) fun _ =>
      scripted_append (scripted_run_command hf ho _ _) fun _ =>
      scripted_append (scripted_run_command hf ho _ _) fun _ =>
      scripted_append (scripted_run_command hf ho _ _) fun _ =>
      scripted_append (scripted_run_command hf ho _ _) fun _ =>
      scripted_append (scripted_run_command hf ho _ _) fun _ =>
      scripted_append (scripted_run_command hf ho _ _) fun _ =>
      scripted_append (scripted_run_command hf ho _ _) fun _ =>
      scripted_append (scripted_run_command hf ho _ _) fun output =>
      scripted_nilF (scripted_ite_same (scripted_msg hf _) (scripted_msg hf _))) ?_
  simp [install_frr_events]

theorem scripted_configure_basic_ospf {f : Event → Bool} {g : Globals}
    (hf : ∀ t, f (Event.msg t) = false) {o : Oracle} (ho : NoStart o)
    (router : String) (config : RouterConfig) :
    Scripted f g (configure_basic_ospf o router config)
      ((List.filter f [basic_ospf_event router config])) := by
  refine scripted_congr
    (scripted_append (scripted_run_command hf ho _ _) fun _ =>
      scripted_nilF (scripted_pure f g ())) ?_
  simp only [List.append_nil]
  rfl

theorem scripted_set_ospf_weight {f : Event → Bool} {g : Globals}
    (hf : ∀ t, f (Event.msg t) = false) {o : Oracle} (ho : NoStart o)
    (r i : String) (w : Int) :
    Scripted f g (set_ospf_weight o r i w)
      (List.filter f [weight_event r i w]) := by
  refine scripted_congr
    (scripted_append (scripted_run_command hf ho _ _) fun _ =>
      scripted_nilF (scripted_pure f g ())) ?_
  simp only [List.append_nil]
  rfl

theorem scripted_trace_route {f : Event → Bool} {g : Globals}
    (hf : ∀ t, f (Event.msg t) = false) {o : Oracle} (ho : NoStart o) :
    Scripted f g (trace_route o) (trace_route_events.filter f) := by
  refine scripted_congr
    (scripted_skip (scripted_msg hf _) fun _ =>
      scripted_append (scripted_run_command hf ho _ _) fun output =>
      scripted_nilF (scripted_msg hf _)) ?_
  simp [trace_route_events]

theorem scripted_ping_test {f : Event → Bool} {g : Globals}
    (hf : ∀ t, f (Event.msg t) = false) {o : Oracle} (ho : NoStart o) (count : Int) :
    Scripted f g (ping_test o count) ((ping_test_events count).filter f) := by
  refine scripted_congr
    (scripted_skip (scripted_msg hf _) fun _ =>
      scripted_append (scripted_run_command hf ho _ _) fun output =>
      scripted_nilF (scripted_msg hf _)) ?_
  simp [ping_test_events]

theorem scripted_continuous_ping {f : Event → Bool} {g : Globals}
    (hf : ∀ t, f (Event.msg t) = false) (pingOutput : List String) :
    Scripted f g (continuous_ping pingOutput) (continuous_ping_events.filter f) := by
  refine scripted_congr
    (scripted_skip (scripted_msg hf _) fun _ =>
      scripted_skip (scripted_msg hf _) fun _ =>
      scripted_append (scripted_emit _) fun _ =>
      scripted_append (scripted_emit _) fun _ =>
      scripted_nilF (scripted_forM_nil (fun x _ => scripted_msg hf _))) ?_
  simp [continuous_ping_events]


theorem scripted_configure_ospf {f : Event → Bool}
    (hf : ∀ t, f (Event.msg t) = false) {o : Oracle} (ho : NoStart o) (path : String) :
    Scripted f initGlobals (configure_ospf o path)
      ((configure_ospf_events path).filter f) := by
  by_cases hp : path = "north"
  · subst hp
    refine scripted_congr
      (scripted_skip (scripted_msg hf _) fun _ =>
       scripted_read_bind
        (scripted_append
          (scripted_append
            (scripted_append (scripted_configure_basic_ospf hf ho "r1" r1_config) fun _ =>
             scripted_append (scripted_set_ospf_weight hf ho "r1" "eth1" 10) fun _ =>
             scripted_set_ospf_weight hf ho "r1" "eth2" 100)
           fun _ =>
           scripted_append
            (scripted_append (scripted_configure_basic_ospf hf ho "r2" r2_config) fun _ =>
             scripted_append (scripted_set_ospf_weight hf ho "r2" "eth0" 10) fun _ =>
             scripted_set_ospf_weight hf ho "r2" "eth1" 10)
           fun _ =>
           scripted_append
            (scripted_append (scripted_configure_basic_ospf hf ho "r3" r3_config) fun _ =>
             scripted_append (scripted_set_ospf_weight hf ho "r3" "eth0" 10) fun _ =>
             scripted_set_ospf_weight hf ho "r3" "eth1" 100)
           fun _ =>
           scripted_append
            (scripted_append (scripted_configure_basic_ospf hf ho "r4" r4_config) fun _ =>
             scripted_append (scripted_set_ospf_weight hf ho "r4" "eth0" 100) fun _ =>
             scripted_set_ospf_weight hf ho "r4" "eth1" 100)
           fun _ =>
           scripted_nilF (scripted_pure _ _ PUnit.unit))
         fun _ =>
         scripted_skip (scripted_msg hf _) fun _ =>
         scripted_append (scripted_emit (Event.sleep 5)) fun _ =>
         scripted_nilF (scripted_msg hf _))) ?_
    simp [configure_ospf_events]
  · simp only [configure_ospf, hp, if_false]
    refine scripted_congr
      (scripted_skip (scripted_msg hf _) fun _ =>
       scripted_read_bind
        (scripted_append
          (scripted_append
            (scripted_append (scripted_configure_basic_ospf hf ho "r1" r1_config) fun _ =>
             scripted_append (scripted_set_ospf_weight hf ho "r1" "eth1" 100) fun _ =>
             scripted_set_ospf_weight hf ho "r1" "eth2" 10)
           fun _ =>
           scripted_append
            (scripted_append (scripted_configure_basic_ospf hf ho "r2" r2_config) fun _ =>
             scripted_append (scripted_set_ospf_weight hf ho "r2" "eth0" 100) fun _ =>
             scripted_set_ospf_weight hf ho "r2" "eth1" 100)
           fun _ =>
           scripted_append
            (scripted_append (scripted_configure_basic_ospf hf ho "r3" r3_config) fun _ =>
             scripted_append (scripted_set_ospf_weight hf ho "r3" "eth0" 100) fun _ =>
             scripted_set_ospf_weight hf ho "r3" "eth1" 10)
           fun _ =>
           scripted_append
            (scripted_append (scripted_configure_basic_ospf hf ho "r4" r4_config) fun _ =>
             scripted_append (scripted_set_ospf_weight hf ho "r4" "eth0" 10) fun _ =>
             scripted_set_ospf_weight hf ho "r4" "eth1" 10)
           fun _ =>
           scripted_nilF (scripted_pure _ _ PUnit.unit))
         fun _ =>
         scripted_skip (scripted_msg hf _) fun _ =>
         scripted_append (scripted_emit (Event.sleep 5)) fun _ =>
         scripted_nilF (scripted_msg hf _))) ?_
    simp [configure_ospf_events, hp]

theorem scripted_setup_host_routes {f : Event → Bool}
    (hf : ∀ t, f (Event.msg t) = false) {o : Oracle} (ho : NoStart o) :
    Scripted f initGlobals (setup_host_routes o) (host_routes_events.filter f) := by
  refine scripted_congr
    (scripted_skip (scripted_msg hf _) fun _ =>
     scripted_read_bind
      (scripted_append
        (scripted_append
          (scripted_append (scripted_run_command hf ho _ _) fun _ =>
            scripted_nilF (scripted_pure _ _ ()))
         fun _ =>
         scripted_append
          (scripted_append (scripted_run_command hf ho _ _) fun _ =>
            scripted_nilF (scripted_pure _ _ ()))
         fun _ =>
         scripted_nilF (scripted_pure _ _ PUnit.unit))
       fun _ => scripted_nilF (scripted_msg hf _))) ?_
  simp [host_routes_events, HOSTS]

theorem scripted_show_routing_tables {f : Event → Bool}
    (hf : ∀ t, f (Event.msg t) = false) {o : Oracle} (ho : NoStart o) :
    Scripted f initGlobals (show_routing_tables o) (show_routes_events.filter f) := by
  refine scripted_congr
    (scripted_read_bind
      (scripted_append
        (scripted_skip (scripted_msg hf _) fun _ =>
         scripted_append (scripted_run_command hf ho _ _) fun output =>
         scripted_nilF (scripted_msg hf _))
       fun _ =>
       scripted_append
        (scripted_skip (scripted_msg hf _) fun _ =>
         scripted_append (scripted_run_command hf ho _ _) fun output =>
         scripted_nilF (scripted_msg hf _))
       fun _ =>
       scripted_append
        (scripted_skip (scripted_msg hf _) fun _ =>
         scripted_append (scripted_run_command hf ho _ _) fun output =>
         scripted_nilF (scripted_msg hf _))
       fun _ =>
       scripted_append
        (scripted_skip (scripted_msg hf _) fun _ =>
         scripted_append (scripted_run_command hf ho _ _) fun output =>
         scripted_nilF (scripted_msg hf _))
       fun _ =>
       scripted_nilF (scripted_pure _ _ PUnit.unit))) ?_
  simp [show_routes_events]

theorem scripted_show_ospf_neighbors {f : Event → Bool}
    (hf : ∀ t, f (Event.msg t) = false) {o : Oracle} (ho : NoStart o) :
    Scripted f initGlobals (show_ospf_neighbors o) (show_neighbors_events.filter f) := by
  refine scripted_congr
    (scripted_read_bind
      (scripted_append
        (scripted_skip (scripted_msg hf _) fun _ =>
         scripted_append (scripted_run_command hf ho _ _) fun output =>
         scripted_nilF (scripted_msg hf _))
       fun _ =>
       scripted_append
        (scripted_skip (scripted_msg hf _) fun _ =>
         scripted_append (scripted_run_command hf ho _ _) fun output =>
         scripted_nilF (scripted_msg hf _))
       fun _ =>
       scripted_append
        (scripted_skip (scripted_msg hf _) fun _ =>
         scripted_append (scripted_run_command hf ho _ _) fun output =>
         scripted_nilF (scripted_msg hf _))
       fun _ =>
       scripted_append
        (scripted_skip (scripted_msg hf _) fun _ =>
         scripted_append (scripted_run_command hf ho _ _) fun output =>
         scripted_nilF (scripted_msg hf _))
       fun _ =>
       scripted_nilF (scripted_pure _ _ PUnit.unit))) ?_
  simp [show_neighbors_events]

theorem scripted_switch_traffic_path {f : Event → Bool}
    (hf : ∀ t, f (Event.msg t) = false) {o : Oracle} (ho : NoStart o)
    (fp tp : String) :
    Scripted f initGlobals (switch_traffic_path o fp tp)
      ((switch_events fp tp).filter f) := by
  by_cases h₁ : fp = "north" ∧ tp = "south"
  · obtain ⟨hfp, htp⟩ := h₁
    subst hfp
    subst htp
    refine scripted_congr
      (scripted_append (scripted_emit _) fun _ =>
       scripted_skip (scripted_msg hf _) fun _ =>
       scripted_read_bind
        (scripted_skip (scripted_msg hf _) fun _ =>
         scripted_append (scripted_set_ospf_weight hf ho "r1" "eth2" 10) fun _ =>
         scripted_append (scripted_set_ospf_weight hf ho "r4" "eth0" 10) fun _ =>
         scripted_append (scripted_set_ospf_weight hf ho "r3" "eth1" 10) fun _ =>
         scripted_append (scripted_set_ospf_weight hf ho "r4" "eth1" 10) fun _ =>
         scripted_skip (scripted_msg hf _) fun _ =>
         scripted_append (scripted_emit (Event.sleep 5)) fun _ =>
         scripted_skip (scripted_msg hf _) fun _ =>
         scripted_append (scripted_set_ospf_weight hf ho "r1" "eth1" 100) fun _ =>
         scripted_append (scripted_set_ospf_weight hf ho "r2" "eth0" 100) fun _ =>
         scripted_append (scripted_set_ospf_weight hf ho "r2" "eth1" 100) fun _ =>
         scripted_append (scripted_set_ospf_weight hf ho "r3" "eth0" 100) fun _ =>
         scripted_skip (scripted_msg hf _) fun _ =>
         scripted_append (scripted_emit (Event.sleep 5)) fun _ =>
         scripted_nilF (scripted_msg hf _))) ?_
    simp [switch_events, lower_south_events, raise_north_events]
  · by_cases h₂ : fp = "south" ∧ tp = "north"
    · obtain ⟨hfp, htp⟩ := h₂
      subst hfp
      subst htp
      refine scripted_congr
        (scripted_append (scripted_emit _) fun _ =>
         scripted_skip (scripted_msg hf _) fun _ =>
         scripted_read_bind
          (scripted_skip (scripted_msg hf _) fun _ =>
           scripted_append (scripted_set_ospf_weight hf ho "r1" "eth1" 10) fun _ =>
           scripted_append (scripted_set_ospf_weight hf ho "r2" "eth0" 10) fun _ =>
           scripted_append (scripted_set_ospf_weight hf ho "r2" "eth1" 10) fun _ =>
           scripted_append (scripted_set_ospf_weight hf ho "r3" "eth0" 10) fun _ =>
           scripted_skip (scripted_msg hf _) fun _ =>
           scripted_append (scripted_emit (Event.sleep 5)) fun _ =>
           scripted_skip (scripted_msg hf _) fun _ =>
           scripted_append (scripted_set_ospf_weight hf ho "r1" "eth2" 100) fun _ =>
           scripted_append (scripted_set_ospf_weight hf ho "r4" "eth0" 100) fun _ =>
           scripted_append (scripted_set_ospf_weight hf ho "r3" "eth1" 100) fun _ =>
           scripted_append (scripted_set_ospf_weight hf ho "r4" "eth1" 100) fun _ =>
           scripted_skip (scripted_msg hf _) fun _ =>
           scripted_append (scripted_emit (Event.sleep 5)) fun _ =>
           scripted_nilF (scripted_msg hf _))) ?_
      simp [switch_events, lower_north_events, raise_south_events]
    · simp only [switch_traffic_path, h₁, h₂, if_false]
      refine scripted_congr
        (scripted_append (scripted_emit _) fun _ =>
         scripted_skip (scripted_msg hf _) fun _ =>
         scripted_read_bind
          (scripted_skip (scripted_pure _ _ ()) fun _ =>
           scripted_skip (scripted_msg hf _) fun _ =>
           scripted_append (scripted_emit (Event.sleep 5)) fun _ =>
           scripted_nilF (scripted_msg hf _))) ?_
      simp [switch_events, h₁, h₂]

theorem scripted_py_main {f : Event → Bool}
    (hf : ∀ t, f (Event.msg t) = false) {o : Oracle} (ho : NoStart o)
    (args : Args) (pingOutput : List String) (argv_len : Nat) :
    Scripted f initGlobals (py_main o args pingOutput argv_len)
      ((main_events args argv_len).filter f) := by
  refine scripted_congr
    (scripted_append
      (scripted_if_flag start_events fun _ => scripted_start_containers hf ho) fun _ =>
     scripted_append
      (scripted_if_flag stop_events fun _ => scripted_stop_containers hf ho) fun _ =>
     scripted_append
      (scripted_if_flag setup_events fun _ =>
        scripted_congr
          (scripted_append (scripted_start_containers hf ho) fun _ =>
           scripted_read_bind
            (scripted_append
              (scripted_append (scripted_install_frr hf ho "r1") fun _ =>
               scripted_append (scripted_install_frr hf ho "r2") fun _ =>
               scripted_append (scripted_install_frr hf ho "r3") fun _ =>
               scripted_append (scripted_install_frr hf ho "r4") fun _ =>
               scripted_nilF (scripted_pure _ _ PUnit.unit))
             fun _ =>
             scripted_append (scripted_configure_ospf hf ho "north") fun _ =>
             scripted_append (scripted_setup_host_routes hf ho) fun _ =>
             scripted_nilF (scripted_msg hf _)))
          (by simp [setup_events])) fun _ =>
     scripted_append
      (scripted_if_flag (configure_ospf_events "north") fun _ =>
        scripted_configure_ospf hf ho "north") fun _ =>
     scripted_append
      (scripted_if_flag (configure_ospf_events "south") fun _ =>
        scripted_configure_ospf hf ho "south") fun _ =>
     scripted_append
      (scripted_if_flag (switch_events "south" "north") fun _ =>
        scripted_switch_traffic_path hf ho "south" "north") fun _ =>
     scripted_append
      (scripted_if_flag (switch_events "north" "south") fun _ =>
        scripted_switch_traffic_path hf ho "north" "south") fun _ =>
     scripted_append
      (scripted_if_flag show_routes_events fun _ =>
        scripted_show_routing_tables hf ho) fun _ =>
     scripted_append
      (scripted_if_flag show_neighbors_events fun _ =>
        scripted_show_ospf_neighbors hf ho) fun _ =>
     scripted_append
      (scripted_if_flag trace_route_events fun _ =>
        scripted_trace_route hf ho) fun _ =>
     scripted_append
      (scripted_if_flag (ping_test_events 4) fun _ =>
        scripted_ping_test hf ho 4) fun _ =>
     scripted_append
      (scripted_if_flag continuous_ping_events fun _ =>
        scripted_continuous_ping hf pingOutput) fun _ =>
     scripted_if_flag [Event.help] fun _ => scripted_emit Event.help) ?_
  simp [main_events]

/-! ## Preservation of the module-level globals -/

/-- From every starting globals, the computation leaves the globals
unchanged. -/
def Pres {α : Type} (m : PyM α) : Prop := ∀ g : Globals, (m g).2.1 = g

theorem pres_pure {α : Type} (a : α) : Pres (pure a : PyM α) := fun _ => rfl

theorem pres_emit (e : Event) : Pres (emit e) := fun _ => rfl

theorem pres_read : Pres readGlobals := fun _ => rfl

theorem pres_run_command (o : Oracle) (cmd : List String) (container : Option String) :
    Pres (run_command o cmd container) := by
  intro g
  cases h : o (build_full_cmd cmd container) <;> simp [run_command, h]

theorem pres_bind {α β : Type} {m : PyM α} {k : α → PyM β}
    (h₁ : Pres m) (h₂ : ∀ a, Pres (k a)) : Pres (m >>= k) := by
  intro g
  show (PyM.bind m k g).2.1 = g
  rcases hm : m g with ⟨r, g₁, tr₁⟩
  have hg₁ : g₁ = g := by
    have hp := h₁ g
    rw [hm] at hp
    exact hp
  subst hg₁
  cases r with
  | error e => simp [PyM.bind, hm]
  | ok a =>
      rcases hk : k a g₁ with ⟨r₂, g₂, tr₂⟩
      have hg₂ : g₂ = g₁ := by
        have hp := h₂ a g₁
        rw [hk] at hp
        exact hp
      subst hg₂
      simp [PyM.bind, hm, hk]

theorem pres_ite {α : Type} {c : Prop} [Decidable c] {m₁ m₂ : PyM α}
    (h₁ : Pres m₁) (h₂ : Pres m₂) : Pres (if c then m₁ else m₂) := by
  by_cases hc : c
  · simpa [hc] using h₁
  · simpa [hc] using h₂

theorem pres_forM {α : Type} {l : List α} {k : α → PyM PUnit}
    (h : ∀ x ∈ l, Pres (k x)) : Pres (l.forM k) := by
  induction l with
  | nil => intro g; rfl
  | cons x xs ih =>
      have hx := h x (List.mem_cons_self x xs)
      have hxs := ih (fun y hy => h y (List.mem_cons_of_mem x hy))
      have hb := pres_bind hx (fun _ => hxs)
      simpa [List.forM_cons'] using hb

theorem pres_start_containers (o : Oracle) : Pres (start_containers o) := by
  unfold start_containers
  repeat' first
    | exact pres_emit _
    | exact pres_run_command _ _ _
    | exact pres_pure _
    | apply pres_bind
    | intro x

theorem pres_stop_containers (o : Oracle) : Pres (stop_containers o) := by
  unfold stop_containers
  repeat' first
    | exact pres_emit _
    | exact pres_run_command _ _ _
    | exact pres_pure _
    | apply pres_bind
    | intro x

theorem pres_install_frr (o : Oracle) (c : String) : Pres (install_frr o c) := by
  unfold install_frr
  repeat' first
    | exact pres_emit _
    | exact pres_run_command _ _ _
    | exact pres_pure _
    | apply pres_bind
    | apply pres_ite
    | intro x

theorem pres_configure_basic_ospf (o : Oracle) (router : String) (config : RouterConfig) :
    Pres (configure_basic_ospf o router config) := by
  unfold configure_basic_ospf
  repeat' first
    | exact pres_run_command _ _ _
    | exact pres_pure _
    | apply pres_bind
    | intro x

theorem pres_set_ospf_weight (o : Oracle) (r i : String) (w : Int) :
    Pres (set_ospf_weight o r i w) := by
  unfold set_ospf_weight
  repeat' first
    | exact pres_run_command _ _ _
    | exact pres_pure _
    | apply pres_bind
    | intro x

theorem pres_configure_ospf (o : Oracle) (path : String) : Pres (configure_ospf o path) := by
  unfold configure_ospf
  repeat' first
    | exact pres_emit _
    | exact pres_read
    | exact pres_pure _
    | exact pres_configure_basic_ospf _ _ _
    | exact pres_set_ospf_weight _ _ _ _
    | apply pres_bind
    | apply pres_ite
    | apply pres_forM
    | intro x

theorem pres_setup_host_routes (o : Oracle) : Pres (setup_host_routes o) := by
  unfold setup_host_routes
  repeat' first
    | exact pres_emit _
    | exact pres_read
    | exact pres_pure _
    | exact pres_run_command _ _ _
    | apply pres_bind
    | apply pres_forM
    | intro x

theorem pres_switch_traffic_path (o : Oracle) (from_path to_path : String) :
    Pres (switch_traffic_path o from_path to_path) := by
  unfold switch_traffic_path
  repeat' first
    | exact pres_emit _
    | exact pres_read
    | exact pres_pure _
    | exact pres_set_ospf_weight _ _ _ _
    | apply pres_bind
    | apply pres_ite
    | intro x

theorem pres_show_routing_tables (o : Oracle) : Pres (show_routing_tables o) := by
  unfold show_routing_tables
  repeat' first
    | exact pres_emit _
    | exact pres_read
    | exact pres_pure _
    | exact pres_run_command _ _ _
    | apply pres_bind
    | apply pres_forM
    | intro x

theorem pres_show_ospf_neighbors (o : Oracle) : Pres (show_ospf_neighbors o) := by
  unfold show_ospf_neighbors
  repeat' first
    | exact pres_emit _
    | exact pres_read
    | exact pres_pure _
    | exact pres_run_command _ _ _
    | apply pres_bind
    | apply pres_forM
    | intro x

theorem pres_trace_route (o : Oracle) : Pres (trace_route o) := by
  unfold trace_route
  repeat' first
    | exact pres_emit _
    | exact pres_run_command _ _ _
    | exact pres_pure _
    | apply pres_bind
    | intro x

theorem pres_ping_test (o : Oracle) (count : Int) : Pres (ping_test o count) := by
  unfold ping_test
  repeat' first
    | exact pres_emit _
    | exact pres_run_command _ _ _
    | exact pres_pure _
    | apply pres_bind
    | intro x

theorem pres_continuous_ping (pingOutput : List String) :
    Pres (continuous_ping pingOutput) := by
  unfold continuous_ping
  repeat' first
    | exact pres_emit _
    | exact pres_pure _
    | apply pres_bind
    | apply pres_forM
    | intro x

theorem pres_py_main (o : Oracle) (args : Args) (pingOutput : List String)
    (argv_len : Nat) : Pres (py_main o args pingOutput argv_len) := by
  unfold py_main
  refine pres_bind (pres_ite (pres_start_containers o) (pres_pure _)) fun _ => ?_
  refine pres_bind (pres_ite (pres_stop_containers o) (pres_pure _)) fun _ => ?_
  refine pres_bind (pres_ite ?_ (pres_pure _)) fun _ => ?_
  · refine pres_bind (pres_start_containers o) fun _ => ?_
    refine pres_bind pres_read fun g => ?_
    refine pres_bind (pres_forM fun x hx => pres_install_frr o x.1) fun _ => ?_
    refine pres_bind (pres_configure_ospf o "north") fun _ => ?_
    refine pres_bind (pres_setup_host_routes o) fun _ => ?_
    exact pres_emit _
  · refine pres_bind (pres_ite (pres_configure_ospf o "north") (pres_pure _)) fun _ => ?_
    refine pres_bind (pres_ite (pres_configure_ospf o "south") (pres_pure _)) fun _ => ?_
    refine pres_bind
      (pres_ite (pres_switch_traffic_path o "south" "north") (pres_pure _)) fun _ => ?_
    refine pres_bind
      (pres_ite (pres_switch_traffic_path o "north" "south") (pres_pure _)) fun _ => ?_
    refine pres_bind (pres_ite (pres_show_routing_tables o) (pres_pure _)) fun _ => ?_
    refine pres_bind (pres_ite (pres_show_ospf_neighbors o) (pres_pure _)) fun _ => ?_
    refine pres_bind (pres_ite (pres_trace_route o) (pres_pure _)) fun _ => ?_
    refine pres_bind (pres_ite (pres_ping_test o 4) (pres_pure _)) fun _ => ?_
    refine pres_bind (pres_ite (pres_continuous_ping pingOutput) (pres_pure _)) fun _ => ?_
    exact pres_ite (pres_emit _) (pres_pure _)

/-! ## Concrete environments and filter computations -/

/-- An environment in which every command succeeds with empty output. -/
def allSuccess : Oracle := fun _ => ProcResult.success ""

theorem allSuccess_noStart : NoStart allSuccess := fun _ h => ProcResult.noConfusion h

/-- An environment in which every command exits with status 2 and stderr
"boom". -/
def failOracle : Oracle := fun _ => ProcResult.failed 2 "boom"

theorem failOracle_noStart : NoStart failOracle := fun _ h => ProcResult.noConfusion h

theorem install_frr_events_filter (c : String) :
    (install_frr_events c).filter cmdEvent = install_frr_events c := by
  simp [install_frr_events, cmdEvent, List.filter_cons]

theorem configure_ospf_events_filter (path : String) :
    (configure_ospf_events path).filter cmdEvent = configure_ospf_events path := by
  by_cases hp : path = "north" <;>
    simp [configure_ospf_events, hp, basic_ospf_event, weight_event, cmdEvent,
      List.filter_cons]

theorem pym_bind_def {α β : Type} (m : PyM α) (k : α → PyM β) :
    m >>= k = PyM.bind m k := rfl

theorem pym_pure_def {α : Type} (a : α) : (pure a : PyM α) = PyM.pure a := rfl

theorem forM_print_trace (l : List String) (g : Globals) :
    l.forM (fun line => pyPrint line.trim) g =
      (Except.ok PUnit.unit, g, l.map (fun line => Event.msg line.trim)) := by
  induction l generalizing g with
  | nil => rfl
  | cons x xs ih =>
      show PyM.bind (pyPrint x.trim) (fun _ => xs.forM (fun line => pyPrint line.trim)) g = _
      simp only [pyPrint] at ih
      simp [PyM.bind, pyPrint, emit, ih]

theorem main_events_switch_filter (args : Args) (argv_len : Nat) :
    (main_events args argv_len).filter switchCallEvent =
      (if args.switch_to_north then [Event.callSwitch "south" "north"] else []) ++
      (if args.switch_to_south then [Event.callSwitch "north" "south"] else []) := by
  have e1 : start_events.filter switchCallEvent = [] := by decide
  have e2 : stop_events.filter switchCallEvent = [] := by decide
  have e3 : setup_events.filter switchCallEvent = [] := by decide
  have e4 : (configure_ospf_events "north").filter switchCallEvent = [] := by decide
  have e5 : (configure_ospf_events "south").filter switchCallEvent = [] := by decide
  have e6 : (switch_events "south" "north").filter switchCallEvent =
      [Event.callSwitch "south" "north"] := by decide
  have e7 : (switch_events "north" "south").filter switchCallEvent =
      [Event.callSwitch "north" "south"] := by decide
  have e8 : show_routes_events.filter switchCallEvent = [] := by decide
  have e9 : show_neighbors_events.filter switchCallEvent = [] := by decide
  have e10 : trace_route_events.filter switchCallEvent = [] := by decide
  have e11 : (ping_test_events 4).filter switchCallEvent = [] := by decide
  have e12 : continuous_ping_events.filter switchCallEvent = [] := by decide
  have e13 : ([Event.help] : List Event).filter switchCallEvent = [] := by decide
  simp only [main_events, List.filter_append, apply_ite (List.filter switchCallEvent),
    e1, e2, e3, e4, e5, e6, e7, e8, e9, e10, e11, e12, e13, List.filter_nil,
    ite_self, List.append_nil, List.nil_append]

theorem main_events_conc_filter (args : Args) (argv_len : Nat) :
    (main_events args argv_len).filter concEvent =
      (if args.continuous_ping then
        [Event.popen ["docker", "exec", "hosta", "ping", "10.0.15.3"],
         Event.installSigint]
       else []) := by
  have e1 : start_events.filter concEvent = [] := by decide
  have e2 : stop_events.filter concEvent = [] := by decide
  have e3 : setup_events.filter concEvent = [] := by decide
  have e4 : (configure_ospf_events "north").filter concEvent = [] := by decide
  have e5 : (configure_ospf_events "south").filter concEvent = [] := by decide
  have e6 : (switch_events "south" "north").filter concEvent = [] := by decide
  have e7 : (switch_events "north" "south").filter concEvent = [] := by decide
  have e8 : show_routes_events.filter concEvent = [] := by decide
  have e9 : show_neighbors_events.filter concEvent = [] := by decide
  have e10 : trace_route_events.filter concEvent = [] := by decide
  have e11 : (ping_test_events 4).filter concEvent = [] := by decide
  have e12 : continuous_ping_events.filter concEvent =
      [Event.popen ["docker", "exec", "hosta", "ping", "10.0.15.3"],
       Event.installSigint] := by decide
  have e13 : ([Event.help] : List Event).filter concEvent = [] := by decide
  simp only [main_events, List.filter_append, apply_ite (List.filter concEvent),
    e1, e2, e3, e4, e5, e6, e7, e8, e9, e10, e11, e12, e13, List.filter_nil,
    ite_self, List.append_nil, List.nil_append]

theorem emit_apply (e : Event) (g : Globals) :
    emit e g = (Except.ok (), g, [e]) := rfl

theorem pyPrint_apply (s : String) (g : Globals) :
    pyPrint s g = (Except.ok (), g, [Event.msg s]) := rfl

theorem pySleep_apply (n : Nat) (g : Globals) :
    pySleep n g = (Except.ok (), g, [Event.sleep n]) := rfl

theorem readGlobals_apply (g : Globals) : readGlobals g = (Except.ok g, g, []) := rfl

theorem pure_apply {α : Type} (a : α) (g : Globals) :
    (pure a : PyM α) g = (Except.ok a, g, []) := rfl

/-! ## The claims -/

/-- C1: when a spawned process exits with a nonzero status, run_command
catches the failure at the subprocess boundary, prints the command, the exit
code and the stderr, and returns None; on success it returns the stdout
stripped of surrounding whitespace; and no caller branches on that failure:
under any environment in which every invoked process starts, install_frr and
configure_ospf complete normally (no abort, no retry, no exit code received)
and issue their full fixed command sequences, so a failed configuration step
is silently ignored and the remaining steps still execute. -/
theorem claim_C1 (o : Oracle) (ho : NoStart o) (cmd : List String)
    (container : Option String) (g : Globals) :
    (∀ rc err, o (build_full_cmd cmd container) = ProcResult.failed rc err →
      run_command o cmd container g =
        (Except.ok none, g,
         [Event.exec (build_full_cmd cmd container),
          Event.msg ("Error executing command: " ++
            String.intercalate " " (build_full_cmd cmd container)),
          Event.msg ("Exit code: " ++ toString rc),
          Event.msg ("Error output: " ++ err)])) ∧
    (∀ out, o (build_full_cmd cmd container) = ProcResult.success out →
      run_command o cmd container g =
        (Except.ok (some out.trim), g, [Event.exec (build_full_cmd cmd container)])) ∧
    (∀ c, Scripted cmdEvent initGlobals (install_frr o c) (install_frr_events c)) ∧
    (∀ path, Scripted cmdEvent initGlobals (configure_ospf o path)
      (configure_ospf_events path)) := by
  refine ⟨?_, ?_, ?_, ?_⟩
  · intro rc err h
    simp [run_command, h]
  · intro out h
    simp [run_command, h]
  · intro c
    exact scripted_congr (scripted_install_frr (fun _ => rfl) ho c)
      (install_frr_events_filter c)
  · intro path
    exact scripted_congr (scripted_configure_ospf (fun _ => rfl) ho path)
      (configure_ospf_events_filter path)

/-- Witness for C1: under the environment in which every command exits with
status 2 and stderr boom, running apt update in container r1 prints the
command, the exit code and the stderr, and returns None. -/
theorem claim_C1_witness :
    run_command failOracle ["apt", "update"] (some "r1") initGlobals =
      (Except.ok none, initGlobals,
       [Event.exec ["docker", "exec", "r1", "apt", "update"],
        Event.msg "Error executing command: docker exec r1 apt update",
        Event.msg "Exit code: 2",
        Event.msg "Error output: boom"]) := by
  rw [(claim_C1 failOracle failOracle_noStart ["apt", "update"] (some "r1")
    initGlobals).1 2 "boom" rfl]
  decide

/-- C2: for every call configure_ospf(path), each of the four routers first
receives its basic OSPF configuration (router id and every network in area
0.0.0.0) and then its link costs; on path north the R1-R2 and R2-R3 link
interfaces on both endpoints get cost 10 (DEFAULT_WEIGHT) and the R1-R4 and
R3-R4 link interfaces get cost 100 (HIGH_WEIGHT), and for every other value
of path the assignment is reversed, exactly as listed by
configure_ospf_events. -/
theorem claim_C2 (o : Oracle) (ho : NoStart o) (path : String) :
    Scripted cmdEvent initGlobals (configure_ospf o path) (configure_ospf_events path) :=
  scripted_congr (scripted_configure_ospf (fun _ => rfl) ho path)
    (configure_ospf_events_filter path)

/-- Witness for C2 at the all-success environment and path north. -/
theorem claim_C2_witness :
    Scripted cmdEvent initGlobals (configure_ospf allSuccess "north")
      (configure_ospf_events "north") :=
  claim_C2 allSuccess allSuccess_noStart "north"

/-- C3: in switch_traffic_path, for both supported pairs, all four
cost-lowering commands of the destination path are issued first, then the
5-second wait, and only then the four cost-raising commands of the origin
path (make-before-break), followed by the final convergence wait. -/
theorem claim_C3 (o : Oracle) (ho : NoStart o) :
    Scripted cmdEvent initGlobals (switch_traffic_path o "north" "south")
      ((lower_south_events ++ (Event.sleep 5 :: raise_north_events)) ++ [Event.sleep 5]) ∧
    Scripted cmdEvent initGlobals (switch_traffic_path o "south" "north")
      ((lower_north_events ++ (Event.sleep 5 :: raise_south_events)) ++ [Event.sleep 5]) := by
  constructor
  · exact scripted_congr (scripted_switch_traffic_path (fun _ => rfl) ho "north" "south")
      (by decide)
  · exact scripted_congr (scripted_switch_traffic_path (fun _ => rfl) ho "south" "north")
      (by decide)

/-- Witness for C3 at the all-success environment. -/
theorem claim_C3_witness :
    Scripted cmdEvent initGlobals (switch_traffic_path allSuccess "north" "south")
      ((lower_south_events ++ (Event.sleep 5 :: raise_north_events)) ++ [Event.sleep 5]) ∧
    Scripted cmdEvent initGlobals (switch_traffic_path allSuccess "south" "north")
      ((lower_north_events ++ (Event.sleep 5 :: raise_south_events)) ++ [Event.sleep 5]) :=
  claim_C3 allSuccess allSuccess_noStart

/-- C4: run_command returns None exactly when the invoked process starts and
terminates with a nonzero exit status (CalledProcessError), and raises an
uncaught exception exactly when the process cannot be started at all. -/
theorem claim_C4 (o : Oracle) (cmd : List String) (container : Option String)
    (g : Globals) :
    ((run_command o cmd container g).1 = Except.ok none ↔
      ∃ rc err, o (build_full_cmd cmd container) = ProcResult.failed rc err) ∧
    ((run_command o cmd container g).1 = Except.error () ↔
      o (build_full_cmd cmd container) = ProcResult.startError) := by
  cases h : o (build_full_cmd cmd container) <;> simp [run_command, h]

/-- C5: the sequence of shell commands issued by configure_ospf and by
switch_traffic_path, and the 5-second waits between them, is a function of
their arguments alone: under every environment in which the invoked
processes start, the command-and-sleep trace equals a script computed from
the arguments only, regardless of the output, success or failure of any
previously issued command. -/
theorem claim_C5 (o : Oracle) (ho : NoStart o) (path from_path to_path : String) :
    Scripted cmdEvent initGlobals (configure_ospf o path) (configure_ospf_events path) ∧
    Scripted cmdEvent initGlobals (switch_traffic_path o from_path to_path)
      ((switch_events from_path to_path).filter cmdEvent) :=
  ⟨scripted_congr (scripted_configure_ospf (fun _ => rfl) ho path)
     (configure_ospf_events_filter path),
   scripted_switch_traffic_path (fun _ => rfl) ho from_path to_path⟩

/-- Witness for C5 at the all-failure environment: the same script is issued
even though every command fails. -/
theorem claim_C5_witness :
    Scripted cmdEvent initGlobals (configure_ospf failOracle "south")
      (configure_ospf_events "south") ∧
    Scripted cmdEvent initGlobals (switch_traffic_path failOracle "south" "north")
      ((switch_events "south" "north").filter cmdEvent) :=
  claim_C5 failOracle failOracle_noStart "south" "south" "north"

/-- C6: for every pair other than (north, south) and (south, north),
switch_traffic_path issues no weight-changing command at all, yet still
sleeps 5 seconds and prints that traffic was switched to the target path;
and the two supported pairs are the only ones reachable from the CLI
dispatcher: the switch entry markers of any py_main run are exactly
(south, north) when switch_to_north is set and (north, south) when
switch_to_south is set. -/
theorem claim_C6 (o : Oracle) (ho : NoStart o) (g : Globals)
    (from_path to_path : String)
    (h₁ : ¬(from_path = "north" ∧ to_path = "south"))
    (h₂ : ¬(from_path = "south" ∧ to_path = "north")) :
    (switch_traffic_path o from_path to_path g =
      (Except.ok (), g,
       [Event.callSwitch from_path to_path,
        Event.msg ("Switching traffic from " ++ from_path ++ " path to " ++
          to_path ++ " path..."),
        Event.msg "Waiting for full OSPF convergence...",
        Event.sleep 5,
        Event.msg ("Traffic switched to " ++ to_path ++ " path")])) ∧
    (∀ args pingOutput argv_len,
      Scripted switchCallEvent initGlobals (py_main o args pingOutput argv_len)
        ((if args.switch_to_north then [Event.callSwitch "south" "north"] else []) ++
         (if args.switch_to_south then [Event.callSwitch "north" "south"] else []))) := by
  constructor
  · simp [switch_traffic_path, pym_bind_def, PyM.bind, pym_pure_def, PyM.pure,
      emit_apply, pyPrint_apply, pySleep_apply, readGlobals_apply, h₁, h₂]
  · intro args pingOutput argv_len
    exact scripted_congr (scripted_py_main (fun _ => rfl) ho args pingOutput argv_len)
      (main_events_switch_filter args argv_len)

/-- Witness for C6 at the unsupported pair (north, north) under the
all-success environment. -/
theorem claim_C6_witness :
    switch_traffic_path allSuccess "north" "north" initGlobals =
      (Except.ok (), initGlobals,
       [Event.callSwitch "north" "north",
        Event.msg "Switching traffic from north path to north path...",
        Event.msg "Waiting for full OSPF convergence...",
        Event.sleep 5,
        Event.msg "Traffic switched to north path"]) := by
  rw [(claim_C6 allSuccess allSuccess_noStart initGlobals "north" "north"
    (by decide) (by decide)).1]
  decide

/-- C7: for every router, interface and weight, set_ospf_weight generates
exactly one process invocation, docker exec router vtysh with exactly six -c
arguments in order: configure terminal, interface, ip ospf cost, exit, end,
write memory, as listed by vtysh_weight_cmd. -/
theorem claim_C7 (o : Oracle) (r i : String) (w : Int) (g : Globals) :
    ((set_ospf_weight o r i w g).2.2).filter cmdEvent =
      [Event.exec (vtysh_weight_cmd r i w)] := by
  have hset : set_ospf_weight o r i w =
      run_command o (vtysh_weight_cmd r i w) none >>= fun _ => pure () := rfl
  rw [hset]
  cases h : o (vtysh_weight_cmd r i w) <;>
    simp [pym_bind_def, PyM.bind, run_command, build_full_cmd, h, pym_pure_def,
      PyM.pure, cmdEvent, List.filter_cons]

/-- C8: run_command executes the command unchanged on the local host when no
container is given, and executes docker exec container cmd when a (nonempty)
container name is given. -/
theorem claim_C8 (o : Oracle) (cmd : List String) (g : Globals) :
    ((run_command o cmd none g).2.2).filter cmdEvent = [Event.exec cmd] ∧
    (∀ c : String, c ≠ "" →
      ((run_command o cmd (some c) g).2.2).filter cmdEvent =
        [Event.exec (["docker", "exec", c] ++ cmd)]) := by
  constructor
  · simp only [run_command, build_full_cmd]
    cases h : o cmd <;> simp [h, cmdEvent, List.filter_cons]
  · intro c hc
    simp only [run_command, build_full_cmd, hc, if_false]
    cases h : o ("docker" :: "exec" :: c :: cmd) <;>
      simp [h, cmdEvent, List.filter_cons]

/-- Witness for C8 with container r1 and command ls. -/
theorem claim_C8_witness :
    ((run_command allSuccess ["ls"] (some "r1") initGlobals).2.2).filter cmdEvent =
      [Event.exec ["docker", "exec", "r1", "ls"]] :=
  (claim_C8 allSuccess ["ls"] initGlobals).2 "r1" (by decide)

/-- C9: the ROUTERS and HOSTS mappings and the weight constants are static:
every operation of the program, run from any globals under any environment,
leaves the module-level globals (carrying ROUTERS, HOSTS, DEFAULT_WEIGHT
and HIGH_WEIGHT) unchanged; operations only read them. -/
theorem claim_C9 (o : Oracle) (g : Globals) (cmd : List String)
    (container : Option String) (c path from_path to_path iface : String)
    (config : RouterConfig) (w count : Int) (pingOutput : List String)
    (args : Args) (argv_len : Nat) :
    (run_command o cmd container g).2.1 = g ∧
    (start_containers o g).2.1 = g ∧
    (stop_containers o g).2.1 = g ∧
    (install_frr o c g).2.1 = g ∧
    (configure_basic_ospf o c config g).2.1 = g ∧
    (set_ospf_weight o c iface w g).2.1 = g ∧
    (configure_ospf o path g).2.1 = g ∧
    (setup_host_routes o g).2.1 = g ∧
    (switch_traffic_path o from_path to_path g).2.1 = g ∧
    (show_routing_tables o g).2.1 = g ∧
    (show_ospf_neighbors o g).2.1 = g ∧
    (trace_route o g).2.1 = g ∧
    (ping_test o count g).2.1 = g ∧
    (continuous_ping pingOutput g).2.1 = g ∧
    (py_main o args pingOutput argv_len g).2.1 = g :=
  ⟨pres_run_command o cmd container g, pres_start_containers o g,
   pres_stop_containers o g, pres_install_frr o c g,
   pres_configure_basic_ospf o c config g, pres_set_ospf_weight o c iface w g,
   pres_configure_ospf o path g, pres_setup_host_routes o g,
   pres_switch_traffic_path o from_path to_path g, pres_show_routing_tables o g,
   pres_show_ospf_neighbors o g, pres_trace_route o g, pres_ping_test o count g,
   pres_continuous_ping pingOutput g, pres_py_main o args pingOutput argv_len g⟩

/-- C10: continuous_ping is the only operation spawning a background child
process: its trace is the two prints, the one background ping Popen inside
hosta, the SIGINT-handler installation, and the echoed ping lines; the
installed handler prints, terminates that one child and exits the program
with status 0; and across the whole dispatcher the concurrency events are
exactly the Popen and the handler installation, present only when the
continuous-ping flag is set. -/
theorem claim_C10 (o : Oracle) (ho : NoStart o) (pingOutput : List String)
    (args : Args) (argv_len : Nat) (g : Globals) :
    continuous_ping pingOutput g =
      (Except.ok (), g,
       [Event.msg "Starting continuous ping from HostA to HostB...",
        Event.msg "Press Ctrl+C to stop",
        Event.popen ["docker", "exec", "hosta", "ping", "10.0.15.3"],
        Event.installSigint] ++ pingOutput.map (fun line => Event.msg line.trim)) ∧
    signal_handler_events =
      [Event.msg "\nStopping ping...", Event.terminateChild, Event.exitProgram 0] ∧
    Scripted concEvent initGlobals (py_main o args pingOutput argv_len)
      (if args.continuous_ping then
        [Event.popen ["docker", "exec", "hosta", "ping", "10.0.15.3"],
         Event.installSigint]
       else []) := by
  refine ⟨?_, rfl, ?_⟩
  · simp [continuous_ping, pym_bind_def, PyM.bind, emit_apply, pyPrint_apply,
      forM_print_trace]
  · exact scripted_congr (scripted_py_main (fun _ => rfl) ho args pingOutput argv_len)
      (main_events_conc_filter args argv_len)

/-- Witness for C10 with an empty ping stream under the all-success
environment. -/
theorem claim_C10_witness :
    continuous_ping [] initGlobals =
      (Except.ok (), initGlobals,
       [Event.msg "Starting continuous ping from HostA to HostB...",
        Event.msg "Press Ctrl+C to stop",
        Event.popen ["docker", "exec", "hosta", "ping", "10.0.15.3"],
        Event.installSigint]) := by
  rw [(claim_C10 allSuccess allSuccess_noStart []
    { start := false, stop := false, setup := false, use_north := false,
      use_south := false, switch_to_north := false, switch_to_south := false,
      show_routes := false, show_neighbors := false, traceroute := false,
      ping := false, continuous_ping := false }
    1 initGlobals).1]
  decide
